import Mathlib

/-!
Verification of the BeemSpec story-mapping backend.

This file gives a shallow embedding of the parts of the repository that carry
the invariant-bearing logic: the SQL stored functions and triggers in
`supabase/migrations` (reorder-by-array, auto sort-order on insert, atomic
cascading release deletion) and the HTTP route handlers in `src/app/api`
(id validation, partial updates, error translation).  Database tables are
lists of row records; each SQL statement or handler becomes a pure function
on a `DB` value, with failure as `Except`.  Ids are plain strings (UUIDs in
the real system).  Timestamps are naturals.
-/

set_option autoImplicit false

namespace BeemSpec

/-! ### Row types (from supabase/migrations/001_initial_schema.sql) -/

/-- A row of the `releases` table. -/
structure ReleaseRow where
  id : String
  story_map_id : String
  name : String
  description : Option String
  sort_order : Int
deriving DecidableEq

/-- A row of the `activities` table. -/
structure ActivityRow where
  id : String
  story_map_id : String
  name : String
  description : Option String
  sort_order : Int
deriving DecidableEq

/-- A row of the `tasks` table. -/
structure TaskRow where
  id : String
  activity_id : String
  name : String
  description : Option String
  sort_order : Int
deriving DecidableEq

/-- The fixed story status set from the `stories.status` CHECK constraint. -/
inductive StoryStatus where
  | backlog
  | ready
  | in_progress
  | review
  | done
deriving DecidableEq

/-- A row of the `stories` table.  `release_id` is nullable
(`NULL` means backlog). -/
structure StoryRow where
  id : String
  task_id : String
  release_id : Option String
  title : String
  requirements : String
  acceptance_criteria : String
  figma_link : Option String
  edge_cases : Option String
  technical_guidelines : Option String
  status : StoryStatus
  sort_order : Int
  created_at : Nat
  updated_at : Nat
deriving DecidableEq

/-- The relational store: the tables relevant to the claims. -/
structure DB where
  releases : List ReleaseRow
  activities : List ActivityRow
  tasks : List TaskRow
  stories : List StoryRow
deriving DecidableEq

/-! ### SQL helpers -/

/-- Postgres `array_position(arr, x)`: the 1-based index of the first
occurrence of `x` in `arr`, or NULL (`none`) when absent. -/
def array_position (arr : List String) (x : String) : Option Int :=
  if x ∈ arr then some ((List.indexOf x arr : Nat) + 1) else none

/-- `COALESCE(MAX(xs), -1)`: SQL `MAX` over the multiset `xs` of values,
which is NULL on the empty set, coalesced to `-1`
(as used by the auto sort-order triggers in the `003` migration). -/
def coalesce_max_neg1 (xs : List Int) : Int :=
  match xs with
  | [] => -1
  | a :: as => as.foldl max a

/-! ### Reorder functions (supabase/migrations/002_db_functions.sql)

Each `reorder_*` function is a single SQL `UPDATE ... WHERE <group key> AND
id = ANY(p_order)` setting `sort_order = array_position(p_order, id) - 1`.
We embed the `UPDATE` as a map over the table applying the per-row effect;
rows not matched by the `WHERE` clause are returned unchanged. -/

/-- Effect of the `reorder_releases` UPDATE on a single row. -/
def reorder_releases_row (p_story_map_id : String) (p_order : List String)
    (r : ReleaseRow) : ReleaseRow :=
  if r.story_map_id = p_story_map_id ∧ r.id ∈ p_order then
    { r with sort_order := (array_position p_order r.id).getD 0 - 1 }
  else r

/-- `reorder_releases(p_story_map_id, p_order)` applied to the
`releases` table. -/
def reorder_releases (p_story_map_id : String) (p_order : List String)
    (releases : List ReleaseRow) : List ReleaseRow :=
  releases.map (reorder_releases_row p_story_map_id p_order)

/-- Effect of the `reorder_activities` UPDATE on a single row. -/
def reorder_activities_row (p_story_map_id : String) (p_order : List String)
    (a : ActivityRow) : ActivityRow :=
  if a.story_map_id = p_story_map_id ∧ a.id ∈ p_order then
    { a with sort_order := (array_position p_order a.id).getD 0 - 1 }
  else a

/-- `reorder_activities(p_story_map_id, p_order)` applied to the
`activities` table. -/
def reorder_activities (p_story_map_id : String) (p_order : List String)
    (activities : List ActivityRow) : List ActivityRow :=
  activities.map (reorder_activities_row p_story_map_id p_order)

/-- Effect of the `reorder_tasks` UPDATE on a single row. -/
def reorder_tasks_row (p_activity_id : String) (p_order : List String)
    (t : TaskRow) : TaskRow :=
  if t.activity_id = p_activity_id ∧ t.id ∈ p_order then
    { t with sort_order := (array_position p_order t.id).getD 0 - 1 }
  else t

/-- `reorder_tasks(p_activity_id, p_order)` applied to the `tasks` table. -/
def reorder_tasks (p_activity_id : String) (p_order : List String)
    (tasks : List TaskRow) : List TaskRow :=
  tasks.map (reorder_tasks_row p_activity_id p_order)

/-- Effect of the `reorder_stories` UPDATE on a single row.  The group key is
`task_id = p_task_id AND release_id IS NOT DISTINCT FROM p_release_id`;
`IS NOT DISTINCT FROM` on nullable values is exactly equality of
`Option String`. -/
def reorder_stories_row (p_task_id : String) (p_release_id : Option String)
    (p_order : List String) (s : StoryRow) : StoryRow :=
  if s.task_id = p_task_id ∧ s.release_id = p_release_id ∧ s.id ∈ p_order then
    { s with sort_order := (array_position p_order s.id).getD 0 - 1 }
  else s

/-- `reorder_stories(p_task_id, p_release_id, p_order)` applied to the
`stories` table. -/
def reorder_stories (p_task_id : String) (p_release_id : Option String)
    (p_order : List String) (stories : List StoryRow) : List StoryRow :=
  stories.map (reorder_stories_row p_task_id p_release_id p_order)

/-! ### delete_release (supabase/migrations/002_db_functions.sql)

The plpgsql function runs in a single transaction: it deletes the stories of
the release, deletes the release, and raises `P0002` when the release row
did not exist — which rolls the whole transaction back.  The embedding is a
single state transition returning either the new state or the error code. -/

/-- `delete_release(p_release_id)`.  `v_deleted` is the `ROW_COUNT`
diagnostic of the release `DELETE`. -/
def delete_release (p_release_id : String) (db : DB) : Except String DB :=
  let stories2 := db.stories.filter (fun s => ¬ s.release_id = some p_release_id)
  let releases2 := db.releases.filter (fun r => ¬ r.id = p_release_id)
  let v_deleted := db.releases.length - releases2.length
  if v_deleted = 0 then Except.error "P0002"
  else Except.ok { db with stories := stories2, releases := releases2 }

/-! ### Auto sort-order triggers (003_auto_sort_order.sql migration)

`BEFORE INSERT` triggers: when `NEW.sort_order IS NULL`, it is set to
`COALESCE(MAX(sort_order), -1) + 1` over the sibling group of the new row. -/

/-- `auto_sort_order_releases`: the `sort_order` actually stored for a new
release, given the value supplied by the insert (`none` = NULL) and the
current table contents. -/
def auto_sort_order_releases (story_map_id : String) (given : Option Int)
    (releases : List ReleaseRow) : Int :=
  match given with
  | some v => v
  | none =>
      coalesce_max_neg1
        ((releases.filter (fun r => r.story_map_id = story_map_id)).map
          (fun r => r.sort_order)) + 1

/-- `auto_sort_order_stories`: sibling group is
`task_id = NEW.task_id AND release_id IS NOT DISTINCT FROM NEW.release_id`. -/
def auto_sort_order_stories (task_id : String) (release_id : Option String)
    (given : Option Int) (stories : List StoryRow) : Int :=
  match given with
  | some v => v
  | none =>
      coalesce_max_neg1
        ((stories.filter
            (fun s => s.task_id = task_id ∧ s.release_id = release_id)).map
          (fun s => s.sort_order)) + 1

/-- Values supplied by a release `INSERT` (`sort_order` is NULL when the
client did not provide one; the column default is NULL after the `003`
migration). -/
structure ReleaseInsert where
  id : String
  story_map_id : String
  name : String
  description : Option String
  sort_order : Option Int
deriving DecidableEq

/-- Insert into `releases` with the `trg_auto_sort_order_releases` trigger
applied; returns the new table and the created row (`insert ... select
single`). -/
def insert_release (r : ReleaseInsert) (releases : List ReleaseRow) :
    List ReleaseRow × ReleaseRow :=
  let row : ReleaseRow :=
    { id := r.id, story_map_id := r.story_map_id, name := r.name,
      description := r.description,
      sort_order := auto_sort_order_releases r.story_map_id r.sort_order releases }
  (releases ++ [row], row)

/-- Values supplied by a story `INSERT`. -/
structure StoryInsert where
  id : String
  task_id : String
  release_id : Option String
  title : String
  requirements : String
  acceptance_criteria : String
  figma_link : Option String
  edge_cases : Option String
  technical_guidelines : Option String
  status : StoryStatus
  sort_order : Option Int
  created_at : Nat
  updated_at : Nat
deriving DecidableEq

/-- Insert into `stories` with the `trg_auto_sort_order_stories` trigger
applied; returns the new table and the created row. -/
def insert_story (s : StoryInsert) (stories : List StoryRow) :
    List StoryRow × StoryRow :=
  let row : StoryRow :=
    { id := s.id, task_id := s.task_id, release_id := s.release_id,
      title := s.title, requirements := s.requirements,
      acceptance_criteria := s.acceptance_criteria,
      figma_link := s.figma_link, edge_cases := s.edge_cases,
      technical_guidelines := s.technical_guidelines, status := s.status,
      sort_order :=
        auto_sort_order_stories s.task_id s.release_id s.sort_order stories,
      created_at := s.created_at, updated_at := s.updated_at }
  (stories ++ [row], row)

/-! ### Helper lemmas about SQL primitives -/

/-- Removing at least one element strictly shrinks a filtered list. -/
theorem length_filter_lt_of_mem {α : Type} (p : α → Bool) {l : List α} {x : α}
    (hx : x ∈ l) (hpx : p x = false) :
    (l.filter p).length < l.length := by
  induction hx with
  | head as =>
      have hle := List.length_filter_le p as
      simp [List.filter_cons, hpx]
      omega
  | tail b hmem ih =>
      by_cases hpb : p b = true
      · simp [List.filter_cons, hpb]
        omega
      · simp [List.filter_cons, hpb]
        omega

/-- The seed of a `foldl max` is a lower bound of the result. -/
theorem le_foldl_max_init (l : List Int) (a : Int) : a ≤ l.foldl max a := by
  induction l generalizing a with
  | nil => exact le_refl a
  | cons b l ih => exact le_trans (le_max_left a b) (ih (max a b))

/-- Every list element is a lower bound of a `foldl max` over the list. -/
theorem le_foldl_max_of_mem {l : List Int} {x : Int} (hx : x ∈ l) (a : Int) :
    x ≤ l.foldl max a := by
  induction l generalizing a with
  | nil => cases hx
  | cons b l ih =>
      rcases List.mem_cons.1 hx with rfl | hx2
      · exact le_trans (le_max_right a x) (le_foldl_max_init l (max a x))
      · exact ih hx2 (max a b)

/-- A `foldl max` returns its seed or one of the list elements. -/
theorem foldl_max_mem (l : List Int) (a : Int) :
    l.foldl max a = a ∨ l.foldl max a ∈ l := by
  induction l generalizing a with
  | nil => exact Or.inl rfl
  | cons b l ih =>
      rcases ih (max a b) with h | h
      · rcases max_choice a b with hm | hm
        · exact Or.inl (by rw [List.foldl_cons, h, hm])
        · exact Or.inr (by rw [List.foldl_cons, h, hm]; exact List.mem_cons_self b l)
      · exact Or.inr (List.mem_cons_of_mem b h)

/-- `COALESCE(MAX(xs), -1)` is an element of a non-empty `xs`. -/
theorem coalesce_max_neg1_mem {xs : List Int} (h : xs ≠ []) :
    coalesce_max_neg1 xs ∈ xs := by
  match xs with
  | [] => exact absurd rfl h
  | a :: as =>
      rcases foldl_max_mem as a with h2 | h2
      · simp only [coalesce_max_neg1]
        rw [h2]
        exact List.mem_cons_self a as
      · simp only [coalesce_max_neg1]
        exact List.mem_cons_of_mem a h2

/-- `COALESCE(MAX(xs), -1)` is an upper bound of `xs`. -/
theorem le_coalesce_max_neg1 {xs : List Int} {x : Int} (hx : x ∈ xs) :
    x ≤ coalesce_max_neg1 xs := by
  match xs with
  | [] => cases hx
  | a :: as =>
      rcases List.mem_cons.1 hx with rfl | h2
      · exact le_foldl_max_init as x
      · exact le_foldl_max_of_mem h2 a

/-- `array_position(ord, ord[i]) - 1 = i` for a duplicate-free order array. -/
theorem array_position_get_sub_one {ord : List String} (hnd : ord.Nodup)
    (i : Nat) (hi : i < ord.length) :
    (array_position ord (ord.get ⟨i, hi⟩)).getD 0 - 1 = (i : Int) := by
  have hmem : ord[i] ∈ ord := by
    simp
  have hidx : List.indexOf ord[i] ord = i := List.indexOf_getElem hnd i hi
  simp [array_position, List.get_eq_getElem, hmem, hidx]

/-! ### Id and body validation (src/lib/validations.ts) -/

/-- One character class of the UUID regexes: `[0-9a-f]` with the `i` flag. -/
def isHexDigit (c : Char) : Bool :=
  (decide ('0' ≤ c) && decide (c ≤ '9'))
    || (decide ('a' ≤ c) && decide (c ≤ 'f'))
    || (decide ('A' ≤ c) && decide (c ≤ 'F'))

/-- Split a character list on `-` characters (the groups of a UUID contain
no hyphen, so this decomposes a regex match uniquely). -/
def splitOnDash : List Char → List (List Char)
  | [] => [[]]
  | c :: rest =>
    match splitOnDash rest with
    | [] => [[]]
    | g :: gs => if c = '-' then [] :: g :: gs else (c :: g) :: gs

/-- `isValidUuid` from `src/lib/validations.ts`: the case-insensitive regex
`[0-9a-f]{8}-[0-9a-f]{4}-4[0-9a-f]{3}-[89ab][0-9a-f]{3}-[0-9a-f]{12}`
anchored at both ends (a version-4, variant-1 UUID), evaluated on the
character sequence of the string. -/
def isValidUuid (s : String) : Bool :=
  match splitOnDash s.data with
  | [g1, g2, g3, g4, g5] =>
      decide (g1.length = 8) && decide (g2.length = 4)
        && decide (g3.length = 4) && decide (g4.length = 4)
        && decide (g5.length = 12)
        && (g1 ++ g2 ++ g3 ++ g4 ++ g5).all isHexDigit
        && decide (g3.take 1 = ['4'])
        && (match g4 with
            | c :: _ =>
                c == '8' || c == '9' || c == 'a' || c == 'b'
                  || c == 'A' || c == 'B'
            | [] => false)
  | _ => false

/-- The format accepted by zod's `z.string().uuid()` (any version digit and
variant): five hyphen-separated hex groups of lengths 8-4-4-4-12.  This
models the external zod library's check used in the request-body schemas. -/
def isZodUuid (s : String) : Bool :=
  match splitOnDash s.data with
  | [g1, g2, g3, g4, g5] =>
      decide (g1.length = 8) && decide (g2.length = 4)
        && decide (g3.length = 4) && decide (g4.length = 4)
        && decide (g5.length = 12)
        && (g1 ++ g2 ++ g3 ++ g4 ++ g5).all isHexDigit
  | _ => false

/-- The string forms Postgres accepts as input for the `uuid` type (modelled
as the plain 8-4-4-4-12 hex form); comparing a `uuid` column against a
string not of this form raises SQLSTATE `22P02`. -/
def pg_uuid_ok (s : String) : Bool :=
  isZodUuid s

/-- A JavaScript object field value as seen by `Object.entries`:
`undefined`, `null`, or a defined value. -/
inductive JsVal where
  | undef
  | null
  | str (s : String)
  | num (n : Int)
deriving DecidableEq

/-- `pickDefined` from `src/lib/validations.ts`: `Object.fromEntries` of the
entries whose value is not `undefined` (`v !== undefined`), preserving
`null` values.  Objects are entry lists. -/
def pickDefined (obj : List (String × JsVal)) : List (String × JsVal) :=
  obj.filter (fun e => e.2 ≠ JsVal.undef)

/-! ### Parsed request bodies

A parsed `updateStorySchema` body: every field is optional (`none` = the key
was absent or `undefined` in the request).  A doubly-optional field is a
nullable one (`some none` = explicit JSON `null`). -/

/-- Output of `updateStorySchema.safeParse` before the `atLeastOneField`
refinement. -/
structure UpdateStoryBody where
  task_id : Option String
  release_id : Option (Option String)
  title : Option String
  requirements : Option String
  acceptance_criteria : Option String
  figma_link : Option (Option String)
  edge_cases : Option (Option String)
  technical_guidelines : Option (Option String)
  status : Option StoryStatus
  sort_order : Option Int
deriving DecidableEq

/-- The `atLeastOneField` refinement of `updateStorySchema`
(`Object.values(data).some(v => v !== undefined)`). -/
def storyBodyHasField (b : UpdateStoryBody) : Bool :=
  b.task_id.isSome || b.release_id.isSome || b.title.isSome
    || b.requirements.isSome || b.acceptance_criteria.isSome
    || b.figma_link.isSome || b.edge_cases.isSome
    || b.technical_guidelines.isSome || b.status.isSome
    || b.sort_order.isSome

/-- Per-field checks of `updateStorySchema` on the supplied fields: uuid
format for ids, non-empty strings with the title capped at 500, non-empty
nullable strings, non-negative `sort_order`.  (The `figma_link` URL check of
the zod library is not modelled; no claim depends on it.) -/
def storyFieldsOk (b : UpdateStoryBody) : Bool :=
  (match b.task_id with | some t => isZodUuid t | none => true)
    && (match b.release_id with | some (some t) => isZodUuid t | _ => true)
    && (match b.title with
        | some t => decide (1 ≤ t.length) && decide (t.length ≤ 500)
        | none => true)
    && (match b.requirements with
        | some r => decide (1 ≤ r.length) | none => true)
    && (match b.acceptance_criteria with
        | some a => decide (1 ≤ a.length) | none => true)
    && (match b.edge_cases with
        | some (some e) => decide (1 ≤ e.length) | _ => true)
    && (match b.technical_guidelines with
        | some (some t) => decide (1 ≤ t.length) | _ => true)
    && (match b.sort_order with | some n => decide (0 ≤ n) | none => true)

/-- The whole `updateStorySchema` acceptance condition. -/
def updateStorySchemaOk (b : UpdateStoryBody) : Bool :=
  storyFieldsOk b && storyBodyHasField b

/-- A parsed reorder body (`reorderReleasesSchema` / `reorderActivitiesSchema`
have the same shape: `story_map_id: uuid, order: uuid[]`). -/
structure ReorderBody where
  story_map_id : String
  order : List String
deriving DecidableEq

/-- Acceptance condition of `reorderReleasesSchema` and
`reorderActivitiesSchema`: both ids well-formed and
`z.array(uuid).min(1)` — the order array must be non-empty. -/
def reorderSchemaOk (b : ReorderBody) : Bool :=
  isZodUuid b.story_map_id && decide (1 ≤ b.order.length)
    && b.order.all isZodUuid

/-! ### HTTP responses and error translation (src/lib/errors.ts) -/

/-- An HTTP response, reduced to its status code and error message. -/
structure HttpResponse where
  status : Nat
  error : Option String
deriving DecidableEq

/-- `DbErrorCode.NOT_FOUND` from `src/lib/errors.ts`: the PostgREST code for
"no rows where `.single()` expected one". -/
def DbErrorCode_NOT_FOUND : String :=
  "PGRST116"

/-- `DbErrorCode.RPC_NOT_FOUND` as it evaluates in
`src/app/api/releases/[id]/route.ts`: the `DbErrorCode` object in
`src/lib/errors.ts` defines only `NOT_FOUND`, so this property access yields
JavaScript `undefined` (`none`). -/
def DbErrorCode_RPC_NOT_FOUND : Option String :=
  none

/-- JavaScript strict equality `code === v` where `v` may be `undefined`:
a string is never strictly equal to `undefined`. -/
def jsStrictEq (code : String) (v : Option String) : Bool :=
  match v with
  | some s => code == s
  | none => false

/-- `invalidIdResponse()` from `src/lib/validations.ts`. -/
def invalidIdResponse : HttpResponse :=
  { status := 400, error := some "Invalid ID format" }

/-- A 400 validation-failure response from `validateRequest`. -/
def validationFailedResponse : HttpResponse :=
  { status := 400, error := some "Validation failed" }

/-- `notFoundResponse(resource)` from `src/lib/errors.ts`. -/
def notFoundResponse (resource : String) : HttpResponse :=
  { status := 404, error := some (resource ++ " not found") }

/-- `serverErrorResponse(message)` from `src/lib/errors.ts`. -/
def serverErrorResponse (message : String) : HttpResponse :=
  { status := 500, error := some message }

/-- A 200 JSON success response (body elided). -/
def okResponse : HttpResponse :=
  { status := 200, error := none }

/-! ### Route handlers (src/app/api) -/

/-- Apply a picked update object to a story row, as the store does for
`update(pickDefined(data) with updated_at).eq('id', id)`: every supplied
field (outer `some`) overwrites the column, absent fields (removed by
`pickDefined`) keep their values, and `updated_at` is set to the request
time. -/
def applyStoryUpdate (b : UpdateStoryBody) (now : Nat) (s : StoryRow) :
    StoryRow :=
  { s with
    task_id := b.task_id.getD s.task_id
    release_id := b.release_id.getD s.release_id
    title := b.title.getD s.title
    requirements := b.requirements.getD s.requirements
    acceptance_criteria := b.acceptance_criteria.getD s.acceptance_criteria
    figma_link := b.figma_link.getD s.figma_link
    edge_cases := b.edge_cases.getD s.edge_cases
    technical_guidelines := b.technical_guidelines.getD s.technical_guidelines
    status := b.status.getD s.status
    sort_order := b.sort_order.getD s.sort_order
    updated_at := now }

/-- `GET /api/stories/[id]` (src/app/api/stories/[id]/route.ts): validate the
path id, then `select().eq('id', id).single()`; no row is the PGRST116
not-found case. -/
def stories_id_GET (id : String) (db : DB) : HttpResponse :=
  if ¬ isValidUuid id then invalidIdResponse
  else
    match db.stories.find? (fun s => s.id = id) with
    | none => notFoundResponse "Story"
    | some _ => okResponse

/-- `PUT /api/stories/[id]` (src/app/api/stories/[id]/route.ts): validate the
path id, validate the body against `updateStorySchema`, then update the
matching row with the picked fields plus `updated_at := now`. -/
def stories_id_PUT (id : String) (b : UpdateStoryBody) (now : Nat) (db : DB) :
    HttpResponse × DB :=
  if ¬ isValidUuid id then (invalidIdResponse, db)
  else if ¬ updateStorySchemaOk b then (validationFailedResponse, db)
  else
    match db.stories.find? (fun s => s.id = id) with
    | none => (notFoundResponse "Story", db)
    | some _ =>
        (okResponse,
          { db with
            stories :=
              db.stories.map
                (fun s => if s.id = id then applyStoryUpdate b now s else s) })

/-- `DELETE /api/stories/[id]` (src/app/api/stories/[id]/route.ts). -/
def stories_id_DELETE (id : String) (db : DB) : HttpResponse × DB :=
  if ¬ isValidUuid id then (invalidIdResponse, db)
  else
    match db.stories.find? (fun s => s.id = id) with
    | none => (notFoundResponse "Story", db)
    | some _ =>
        (okResponse,
          { db with stories := db.stories.filter (fun s => ¬ s.id = id) })

/-- `DELETE /api/releases/[id]` (src/app/api/releases/[id]/route.ts, current
snapshot): validate the path id, call the `delete_release` RPC, and translate
its error code through `DbErrorCode.NOT_FOUND` and the undefined
`DbErrorCode.RPC_NOT_FOUND`. -/
def releases_id_DELETE (id : String) (db : DB) : HttpResponse × DB :=
  if ¬ isValidUuid id then (invalidIdResponse, db)
  else
    match delete_release id db with
    | Except.ok db2 => ({ status := 200, error := none }, db2)
    | Except.error code =>
        if jsStrictEq code DbErrorCode_NOT_FOUND
            || jsStrictEq code DbErrorCode_RPC_NOT_FOUND then
          (notFoundResponse "Release", db)
        else
          (serverErrorResponse "Failed to delete release", db)

/-- The store-side effect of `from('tasks').delete().eq('id', id)`: with an
id Postgres cannot parse as a `uuid` the statement fails with SQLSTATE
`22P02`; otherwise the matching task rows are removed together with their
stories (`stories.task_id ON DELETE CASCADE` in the schema). -/
def store_delete_task (id : String) (db : DB) : Except String DB :=
  if pg_uuid_ok id then
    Except.ok
      { db with
        tasks := db.tasks.filter (fun t => ¬ t.id = id)
        stories := db.stories.filter (fun s => ¬ s.task_id = id) }
  else Except.error "22P02"

/-- `DELETE /api/tasks/[id]` (src/app/api/tasks/[id]/route.ts): this handler
performs NO path-id validation — the raw id goes straight to the store, and
any store error is translated to a generic 500. -/
def tasks_id_DELETE (id : String) (db : DB) : HttpResponse × DB :=
  match store_delete_task id db with
  | Except.ok db2 => (okResponse, db2)
  | Except.error _ => (serverErrorResponse "Failed to delete task", db)

/-- `PUT /api/activities` (src/app/api/activities/route.ts): require an
authenticated session, validate the body against `reorderActivitiesSchema`,
then call the `reorder_activities` RPC. -/
def activities_reorder_PUT (authed : Bool) (b : ReorderBody) (db : DB) :
    HttpResponse × DB :=
  if ¬ authed then ({ status := 401, error := some "Unauthorized" }, db)
  else if ¬ reorderSchemaOk b then (validationFailedResponse, db)
  else
    ({ status := 200, error := none },
      { db with
        activities := reorder_activities b.story_map_id b.order db.activities })

/-- `PUT /api/releases` (src/app/api/releases/route.ts): same pipeline with
`reorderReleasesSchema` and the `reorder_releases` RPC. -/
def releases_reorder_PUT (authed : Bool) (b : ReorderBody) (db : DB) :
    HttpResponse × DB :=
  if ¬ authed then ({ status := 401, error := some "Unauthorized" }, db)
  else if ¬ reorderSchemaOk b then (validationFailedResponse, db)
  else
    ({ status := 200, error := none },
      { db with
        releases := reorder_releases b.story_map_id b.order db.releases })

/-! ### Sample data used by the concrete witnesses -/

/-- A well-formed version-4 UUID (variant nibble `8`). -/
def sampleUuidA : String :=
  "11111111-1111-4111-8111-111111111111"

/-- A sample task row in group `g`. -/
def sampleTaskB : TaskRow :=
  { id := "b", activity_id := "g", name := "n", description := none,
    sort_order := 0 }

/-- A sample story row in the `(task g, backlog)` group. -/
def sampleStory : StoryRow :=
  { id := "b", task_id := "g", release_id := none, title := "t",
    requirements := "r", acceptance_criteria := "a", figma_link := none,
    edge_cases := none, technical_guidelines := none,
    status := StoryStatus.backlog, sort_order := 0, created_at := 0,
    updated_at := 0 }

/-- An empty store. -/
def emptyDB : DB :=
  { releases := [], activities := [], tasks := [], stories := [] }

/-- A sample release of story map `m` with sort order 0. -/
def sampleRelease : ReleaseRow :=
  { id := "r1", story_map_id := "m", name := "R", description := none,
    sort_order := 0 }

/-- The same sample release with sort order 4. -/
def sampleRelease4 : ReleaseRow :=
  { sampleRelease with sort_order := 4 }

/-- A release insert for story map `m` without an explicit sort order. -/
def sampleReleaseInsert : ReleaseInsert :=
  { id := "r2", story_map_id := "m", name := "R2", description := none,
    sort_order := none }

/-- A store holding `sampleRelease` and one story assigned to it. -/
def dbWithRelease : DB :=
  { releases := [sampleRelease], activities := [], tasks := [],
    stories := [{ sampleStory with release_id := some "r1" }] }

/-- The update body with no recognized field supplied. -/
def emptyUpdateStoryBody : UpdateStoryBody :=
  { task_id := none, release_id := none, title := none, requirements := none,
    acceptance_criteria := none, figma_link := none, edge_cases := none,
    technical_guidelines := none, status := none, sort_order := none }

/-- An update body supplying exactly the `status` field. -/
def statusOnlyBody (st : StoryStatus) : UpdateStoryBody :=
  { emptyUpdateStoryBody with status := some st }

/-- An update body supplying exactly `release_id` as explicit `null`. -/
def releaseNullBody : UpdateStoryBody :=
  { emptyUpdateStoryBody with release_id := some none }

/-- A store holding one story whose id is `sampleUuidA`. -/
def dbWithStoryU : DB :=
  { releases := [], activities := [], tasks := [],
    stories := [{ sampleStory with id := sampleUuidA }] }

/-! ### Claim theorems -/

/-- C1: for every sibling group and every reorder call with a duplicate-free
order list, each listed member of that group ends with `sort_order` equal to
its zero-based position in the list — shown for `reorder_tasks` (group key:
owning activity) and `reorder_stories` (group key: task and release,
including the NULL release). -/
theorem reorder_sets_listed_sort_order_to_index
    (p_order : List String) (hnd : p_order.Nodup) (i : Nat)
    (hi : i < p_order.length) :
    (∀ (aid : String) (ts : List TaskRow) (t : TaskRow),
        t ∈ reorder_tasks aid p_order ts →
        t.activity_id = aid → t.id = p_order.get ⟨i, hi⟩ →
        t.sort_order = (i : Int))
    ∧ (∀ (tid : String) (rel : Option String) (ss : List StoryRow)
        (s : StoryRow),
        s ∈ reorder_stories tid rel p_order ss →
        s.task_id = tid → s.release_id = rel →
        s.id = p_order.get ⟨i, hi⟩ →
        s.sort_order = (i : Int)) := by
  constructor
  · intro aid ts t hmem hgrp hid
    rcases List.mem_map.1 hmem with ⟨u, hu, hut⟩
    unfold reorder_tasks_row at hut
    by_cases hc : u.activity_id = aid ∧ u.id ∈ p_order
    · rw [if_pos hc] at hut
      have hids : u.id = p_order.get ⟨i, hi⟩ := by
        rw [← hut] at hid
        exact hid
      have hpos := array_position_get_sub_one hnd i hi
      rw [← hut]
      show (array_position p_order u.id).getD 0 - 1 = (i : Int)
      rw [hids]
      exact hpos
    · rw [if_neg hc] at hut
      subst hut
      exact absurd ⟨hgrp, hid ▸ List.get_mem p_order i hi⟩ hc
  · intro tid rel ss s hmem htid hrel hid
    rcases List.mem_map.1 hmem with ⟨u, hu, hut⟩
    unfold reorder_stories_row at hut
    by_cases hc : u.task_id = tid ∧ u.release_id = rel ∧ u.id ∈ p_order
    · rw [if_pos hc] at hut
      have hids : u.id = p_order.get ⟨i, hi⟩ := by
        rw [← hut] at hid
        exact hid
      have hpos := array_position_get_sub_one hnd i hi
      rw [← hut]
      show (array_position p_order u.id).getD 0 - 1 = (i : Int)
      rw [hids]
      exact hpos
    · rw [if_neg hc] at hut
      subst hut
      exact absurd ⟨htid, hrel, hid ▸ List.get_mem p_order i hi⟩ hc

/-- C1 witness: reordering the task group `g` by `["a", "b"]` gives the
member with id `b` sort order 1 (its zero-based position); same at the
story level. -/
theorem reorder_sets_listed_sort_order_to_index_witness :
    (["a", "b"] : List String).Nodup
    ∧ ({ sampleTaskB with sort_order := 1 } : TaskRow).sort_order = (1 : Int)
    ∧ ({ sampleStory with sort_order := 1 } : StoryRow).sort_order
        = (1 : Int) := by
  refine ⟨by decide, ?_, ?_⟩
  · exact
      (reorder_sets_listed_sort_order_to_index ["a", "b"] (by decide) 1
          (by decide)).1
        "g" [sampleTaskB] { sampleTaskB with sort_order := 1 } (by decide)
        (by decide) (by decide)
  · exact
      (reorder_sets_listed_sort_order_to_index ["a", "b"] (by decide) 1
          (by decide)).2
        "g" none [sampleStory] { sampleStory with sort_order := 1 }
        (by decide) (by decide) (by decide) (by decide)

/-- C4: a reorder call leaves every row of the targeted sibling group whose
id is not in the supplied order list completely unchanged (its `sort_order`
is not renumbered) — shown for `reorder_releases` and `reorder_stories`. -/
theorem reorder_leaves_unlisted_members_unchanged (p_order : List String) :
    (∀ (smid : String) (rs : List ReleaseRow) (i : Nat) (hi : i < rs.length)
        (hlen : i < (reorder_releases smid p_order rs).length),
        (rs.get ⟨i, hi⟩).id ∉ p_order →
        (reorder_releases smid p_order rs).get ⟨i, hlen⟩ = rs.get ⟨i, hi⟩)
    ∧ (∀ (tid : String) (rel : Option String) (ss : List StoryRow) (i : Nat)
        (hi : i < ss.length)
        (hlen : i < (reorder_stories tid rel p_order ss).length),
        (ss.get ⟨i, hi⟩).id ∉ p_order →
        (reorder_stories tid rel p_order ss).get ⟨i, hlen⟩
          = ss.get ⟨i, hi⟩) := by
  constructor
  · intro smid rs i hi hlen h
    simp only [reorder_releases, List.get_eq_getElem, List.getElem_map]
    unfold reorder_releases_row
    rw [if_neg]
    intro hc
    simp only [List.get_eq_getElem] at h
    exact h hc.2
  · intro tid rel ss i hi hlen h
    simp only [reorder_stories, List.get_eq_getElem, List.getElem_map]
    unfold reorder_stories_row
    rw [if_neg]
    intro hc
    simp only [List.get_eq_getElem] at h
    exact h hc.2.2

/-- C4 witness: reordering group `m` by `["z"]` leaves a release with id
`r1` (not listed) untouched, and likewise a story not listed. -/
theorem reorder_leaves_unlisted_members_unchanged_witness :
    (reorder_releases "m" ["z"]
        [{ id := "r1", story_map_id := "m", name := "R", description := none,
           sort_order := 7 }]).get ⟨0, by decide⟩
      = { id := "r1", story_map_id := "m", name := "R", description := none,
          sort_order := 7 }
    ∧ (reorder_stories "g" none ["z"] [sampleStory]).get ⟨0, by decide⟩
        = sampleStory := by
  constructor
  · exact
      (reorder_leaves_unlisted_members_unchanged ["z"]).1 "m"
        [{ id := "r1", story_map_id := "m", name := "R", description := none,
           sort_order := 7 }] 0 (by decide) (by decide) (by decide)
  · exact
      (reorder_leaves_unlisted_members_unchanged ["z"]).2 "g" none
        [sampleStory] 0 (by decide) (by decide) (by decide)

/-- C9: a reorder call leaves a row unchanged when the row's id appears in
the order list but the row belongs to a different sibling group than the one
named by the group key — shown for `reorder_tasks` (different owning
activity) and `reorder_stories` (different task or release). -/
theorem reorder_ignores_rows_of_other_groups (p_order : List String) :
    (∀ (aid : String) (ts : List TaskRow) (i : Nat) (hi : i < ts.length)
        (hlen : i < (reorder_tasks aid p_order ts).length),
        (ts.get ⟨i, hi⟩).id ∈ p_order →
        (ts.get ⟨i, hi⟩).activity_id ≠ aid →
        (reorder_tasks aid p_order ts).get ⟨i, hlen⟩ = ts.get ⟨i, hi⟩)
    ∧ (∀ (tid : String) (rel : Option String) (ss : List StoryRow) (i : Nat)
        (hi : i < ss.length)
        (hlen : i < (reorder_stories tid rel p_order ss).length),
        (ss.get ⟨i, hi⟩).id ∈ p_order →
        ¬((ss.get ⟨i, hi⟩).task_id = tid
            ∧ (ss.get ⟨i, hi⟩).release_id = rel) →
        (reorder_stories tid rel p_order ss).get ⟨i, hlen⟩
          = ss.get ⟨i, hi⟩) := by
  constructor
  · intro aid ts i hi hlen _ h
    simp only [reorder_tasks, List.get_eq_getElem, List.getElem_map]
    unfold reorder_tasks_row
    rw [if_neg]
    intro hc
    simp only [List.get_eq_getElem] at h
    exact h hc.1
  · intro tid rel ss i hi hlen _ h
    simp only [reorder_stories, List.get_eq_getElem, List.getElem_map]
    unfold reorder_stories_row
    rw [if_neg]
    intro hc
    simp only [List.get_eq_getElem] at h
    exact h ⟨hc.1, hc.2.1⟩

/-- C9 witness: reordering activity group `other` by `["b"]` leaves the task
with id `b` of activity `g` untouched, and likewise a listed story of a
different (task, release) cell. -/
theorem reorder_ignores_rows_of_other_groups_witness :
    (reorder_tasks "other" ["b"] [sampleTaskB]).get ⟨0, by decide⟩
      = sampleTaskB
    ∧ (reorder_stories "g" (some "r9") ["b"] [sampleStory]).get
        ⟨0, by decide⟩ = sampleStory := by
  constructor
  · exact
      (reorder_ignores_rows_of_other_groups ["b"]).1 "other" [sampleTaskB] 0
        (by decide) (by decide) (by decide) (by decide)
  · exact
      (reorder_ignores_rows_of_other_groups ["b"]).2 "g" (some "r9")
        [sampleStory] 0 (by decide) (by decide) (by decide) (by decide)

/-- C2: deleting an existing release succeeds as one atomic state
transition (the plpgsql function body is a single transaction) after which
exactly 0 stories carry that `release_id` and the release row is absent;
other tables are untouched.  No intermediate state exists in the embedding
because the operation is a single step. -/
theorem delete_release_removes_release_and_its_stories (rid : String)
    (db : DB) (h : ∃ r ∈ db.releases, r.id = rid) :
    ∃ db2, delete_release rid db = Except.ok db2
      ∧ (db2.stories.filter (fun s => s.release_id = some rid)).length = 0
      ∧ (∀ r ∈ db2.releases, ¬ r.id = rid)
      ∧ db2.activities = db.activities ∧ db2.tasks = db.tasks := by
  rcases h with ⟨r0, hr0, hid⟩
  have hlt :
      (db.releases.filter (fun r => ¬ r.id = rid)).length
        < db.releases.length :=
    length_filter_lt_of_mem _ hr0 (by simp [hid])
  refine
    ⟨{ db with
        stories := db.stories.filter (fun s => ¬ s.release_id = some rid)
        releases := db.releases.filter (fun r => ¬ r.id = rid) },
      ?_, ?_, ?_, rfl, rfl⟩
  · unfold delete_release
    rw [if_neg (by omega)]
  · have hnil :
        (db.stories.filter (fun s => ¬ s.release_id = some rid)).filter
            (fun s => s.release_id = some rid) = [] := by
      rw [List.filter_eq_nil_iff]
      intro a ha
      have h2 := (List.mem_filter.1 ha).2
      simp at h2
      simp [h2]
    simp only [hnil, List.length_nil]
  · intro r hr
    have h2 := (List.mem_filter.1 hr).2
    simp at h2
    exact h2

/-- C2 witness: deleting release `r1` from a store holding it and one of its
stories empties both. -/
theorem delete_release_removes_release_and_its_stories_witness :
    ∃ db2, delete_release "r1" dbWithRelease = Except.ok db2
      ∧ (db2.stories.filter (fun s => s.release_id = some "r1")).length = 0
      ∧ (∀ r ∈ db2.releases, ¬ r.id = "r1")
      ∧ db2.activities = dbWithRelease.activities
      ∧ db2.tasks = dbWithRelease.tasks :=
  delete_release_removes_release_and_its_stories "r1" dbWithRelease
    ⟨sampleRelease, by decide, rfl⟩

/-- C3: inserting an ordered entity without an explicit `sort_order` stores,
computed at insert time by the trigger, the maximum existing `sort_order` of
the sibling group plus one — and `0` when the group is empty — shown for
releases (group: story map) and stories (group: task and release). -/
theorem auto_sort_order_assigns_max_plus_one :
    (∀ (r : ReleaseInsert) (releases : List ReleaseRow),
        r.sort_order = none →
        ((((releases.filter
              (fun q => q.story_map_id = r.story_map_id)).map
              (fun q => q.sort_order)) = [] →
            (insert_release r releases).2.sort_order = 0)
          ∧ ((((releases.filter
                (fun q => q.story_map_id = r.story_map_id)).map
                (fun q => q.sort_order)) ≠ []) →
              ∃ m ∈ ((releases.filter
                  (fun q => q.story_map_id = r.story_map_id)).map
                  (fun q => q.sort_order)),
                (∀ x ∈ ((releases.filter
                    (fun q => q.story_map_id = r.story_map_id)).map
                    (fun q => q.sort_order)), x ≤ m)
                  ∧ (insert_release r releases).2.sort_order = m + 1)))
    ∧ (∀ (s : StoryInsert) (stories : List StoryRow),
        s.sort_order = none →
        ((((stories.filter
              (fun q => q.task_id = s.task_id
                ∧ q.release_id = s.release_id)).map
              (fun q => q.sort_order)) = [] →
            (insert_story s stories).2.sort_order = 0)
          ∧ ((((stories.filter
                (fun q => q.task_id = s.task_id
                  ∧ q.release_id = s.release_id)).map
                (fun q => q.sort_order)) ≠ []) →
              ∃ m ∈ ((stories.filter
                  (fun q => q.task_id = s.task_id
                    ∧ q.release_id = s.release_id)).map
                  (fun q => q.sort_order)),
                (∀ x ∈ ((stories.filter
                    (fun q => q.task_id = s.task_id
                      ∧ q.release_id = s.release_id)).map
                    (fun q => q.sort_order)), x ≤ m)
                  ∧ (insert_story s stories).2.sort_order = m + 1))) := by
  constructor
  · intro r releases hnone
    constructor
    · intro hempty
      show auto_sort_order_releases r.story_map_id r.sort_order releases = 0
      unfold auto_sort_order_releases
      rw [hnone, hempty]
      rfl
    · intro hne
      refine ⟨coalesce_max_neg1 _, coalesce_max_neg1_mem hne,
        fun x hx => le_coalesce_max_neg1 hx, ?_⟩
      show auto_sort_order_releases r.story_map_id r.sort_order releases
        = coalesce_max_neg1 _ + 1
      unfold auto_sort_order_releases
      rw [hnone]
  · intro s stories hnone
    constructor
    · intro hempty
      show auto_sort_order_stories s.task_id s.release_id s.sort_order stories
        = 0
      unfold auto_sort_order_stories
      rw [hnone, hempty]
      rfl
    · intro hne
      refine ⟨coalesce_max_neg1 _, coalesce_max_neg1_mem hne,
        fun x hx => le_coalesce_max_neg1 hx, ?_⟩
      show auto_sort_order_stories s.task_id s.release_id s.sort_order stories
        = coalesce_max_neg1 _ + 1
      unfold auto_sort_order_stories
      rw [hnone]

/-- C3 witness: inserting a release without a `sort_order` into a story map
whose only release has `sort_order = 4` stores `4 + 1`. -/
theorem auto_sort_order_assigns_max_plus_one_witness :
    ∃ m ∈ (([sampleRelease4].filter
        (fun q => q.story_map_id = sampleReleaseInsert.story_map_id)).map
        (fun q => q.sort_order)),
      (∀ x ∈ (([sampleRelease4].filter
          (fun q => q.story_map_id = sampleReleaseInsert.story_map_id)).map
          (fun q => q.sort_order)), x ≤ m)
        ∧ (insert_release sampleReleaseInsert [sampleRelease4]).2.sort_order
          = m + 1 :=
  ((auto_sort_order_assigns_max_plus_one).1 sampleReleaseInsert
      [sampleRelease4] rfl).2 (by decide)

/-- C6: a reorder request whose order list is empty fails the schema's
`min(1)` check, so the handler returns the 400 validation response before
any row is modified — shown for the activities and releases reorder
endpoints. -/
theorem reorder_empty_order_rejected_before_mutation (b : ReorderBody)
    (h : b.order = []) (db : DB) :
    (activities_reorder_PUT true b db).1.status = 400
    ∧ (activities_reorder_PUT true b db).2 = db
    ∧ (releases_reorder_PUT true b db).1.status = 400
    ∧ (releases_reorder_PUT true b db).2 = db := by
  have hschema : reorderSchemaOk b = false := by
    simp [reorderSchemaOk, h]
  refine ⟨?_, ?_, ?_, ?_⟩ <;>
    simp [activities_reorder_PUT, releases_reorder_PUT, hschema,
      validationFailedResponse]

/-- C6 witness: an empty order list against an empty store is rejected with
status 400 and the store is unchanged. -/
theorem reorder_empty_order_rejected_before_mutation_witness :
    (activities_reorder_PUT true { story_map_id := sampleUuidA, order := [] }
        emptyDB).1.status = 400
    ∧ (activities_reorder_PUT true
        { story_map_id := sampleUuidA, order := [] } emptyDB).2 = emptyDB
    ∧ (releases_reorder_PUT true
        { story_map_id := sampleUuidA, order := [] } emptyDB).1.status = 400
    ∧ (releases_reorder_PUT true
        { story_map_id := sampleUuidA, order := [] } emptyDB).2 = emptyDB :=
  reorder_empty_order_rejected_before_mutation
    { story_map_id := sampleUuidA, order := [] } rfl emptyDB

/-- C5 (code defect): `delete_release` itself signals the distinct not-found
condition `P0002`, but `DELETE /api/releases/[id]` surfaces it as a generic
500 because `DbErrorCode.RPC_NOT_FOUND` is not defined in `lib/errors.ts`:
`P0002` matches neither `PGRST116` nor `undefined`, so the handler falls
through to `serverErrorResponse`.  The store state is left unchanged. -/
theorem delete_missing_release_returns_500 :
    delete_release sampleUuidA emptyDB = Except.error "P0002"
    ∧ (releases_id_DELETE sampleUuidA emptyDB).1.status = 500
    ∧ (releases_id_DELETE sampleUuidA emptyDB).1.status ≠ 404
    ∧ (releases_id_DELETE sampleUuidA emptyDB).2 = emptyDB := by
  refine ⟨rfl, ?_, ?_, ?_⟩ <;> decide

/-- C7: updating a story with an empty partial-update body is rejected with
a 400 and no row changes; updating with exactly the `status` field changes
only `status` (plus the `updated_at` timestamp, set to the request time) on
the addressed row and nothing else. -/
theorem update_story_partial_semantics (id : String) (now : Nat) (db : DB)
    (hid : isValidUuid id = true) :
    (stories_id_PUT id emptyUpdateStoryBody now db
        = (validationFailedResponse, db))
    ∧ (∀ st : StoryStatus, (∃ s ∈ db.stories, s.id = id) →
        stories_id_PUT id (statusOnlyBody st) now db =
          (okResponse,
            { db with
              stories :=
                db.stories.map (fun s =>
                  if s.id = id then
                    { s with status := st, updated_at := now }
                  else s) })) := by
  constructor
  · have hbad : updateStorySchemaOk emptyUpdateStoryBody = false := by decide
    simp [stories_id_PUT, hid, hbad]
  · intro st hex
    have hok : updateStorySchemaOk (statusOnlyBody st) = true := by
      cases st <;> decide
    have hsome : (db.stories.find? (fun s => s.id = id)).isSome := by
      rw [List.find?_isSome]
      rcases hex with ⟨s, hs, hsid⟩
      exact ⟨s, hs, by simp [hsid]⟩
    rcases Option.isSome_iff_exists.1 hsome with ⟨s0, hs0⟩
    have hfun :
        (fun s : StoryRow =>
            if s.id = id then applyStoryUpdate (statusOnlyBody st) now s
            else s)
          = (fun s : StoryRow =>
              if s.id = id then { s with status := st, updated_at := now }
              else s) := by
      funext s
      by_cases hc : s.id = id
      · simp [hc, applyStoryUpdate, statusOnlyBody, emptyUpdateStoryBody]
      · simp [hc]
    simp [stories_id_PUT, hid, hok, hs0, hfun]

/-- C7 witness: a PUT of only `status := done` on the sample story updates
exactly that field and the timestamp; the empty body is rejected. -/
theorem update_story_partial_semantics_witness :
    isValidUuid sampleUuidA = true
    ∧ (stories_id_PUT sampleUuidA emptyUpdateStoryBody 7 dbWithStoryU
        = (validationFailedResponse, dbWithStoryU))
    ∧ (stories_id_PUT sampleUuidA (statusOnlyBody StoryStatus.done) 7
          dbWithStoryU =
        (okResponse,
          { dbWithStoryU with
            stories :=
              dbWithStoryU.stories.map (fun s =>
                if s.id = sampleUuidA then
                  { s with status := StoryStatus.done, updated_at := 7 }
                else s) })) := by
  refine ⟨by decide, ?_, ?_⟩
  · exact
      (update_story_partial_semantics sampleUuidA 7 dbWithStoryU
          (by decide)).1
  · exact
      (update_story_partial_semantics sampleUuidA 7 dbWithStoryU
          (by decide)).2 StoryStatus.done
        ⟨{ sampleStory with id := sampleUuidA }, by decide, rfl⟩

/-- C8 counterexample: the claim fails at `DELETE /api/tasks/[id]` — the
handler performs no id validation, so the malformed id `not-a-uuid` reaches
the store, whose `22P02` failure is surfaced as a 500, not a 400. -/
theorem tasks_delete_malformed_id_not_rejected :
    (tasks_id_DELETE "not-a-uuid" emptyDB).1.status = 500
    ∧ (tasks_id_DELETE "not-a-uuid" emptyDB).1.status ≠ 400 := by
  refine ⟨?_, ?_⟩ <;> decide

/-- C8 (amended): on the story routes and the release delete route, a
malformed path id short-circuits with the 400 invalid-id response before
any store access: the store state is returned unchanged and the response is
a constant independent of the store. -/
theorem malformed_id_short_circuits_with_400 (id : String)
    (h : isValidUuid id = false) (b : UpdateStoryBody) (now : Nat)
    (db : DB) :
    stories_id_GET id db = invalidIdResponse
    ∧ stories_id_PUT id b now db = (invalidIdResponse, db)
    ∧ stories_id_DELETE id db = (invalidIdResponse, db)
    ∧ releases_id_DELETE id db = (invalidIdResponse, db) := by
  refine ⟨?_, ?_, ?_, ?_⟩ <;>
    simp [stories_id_GET, stories_id_PUT, stories_id_DELETE,
      releases_id_DELETE, h]

/-- C8 witness: the malformed id `xyz` is rejected with 400 by the story GET
route without touching the store. -/
theorem malformed_id_short_circuits_with_400_witness :
    isValidUuid "xyz" = false
    ∧ stories_id_GET "xyz" emptyDB = invalidIdResponse
    ∧ stories_id_DELETE "xyz" emptyDB = (invalidIdResponse, emptyDB) := by
  refine ⟨by decide, ?_, ?_⟩
  · exact
      (malformed_id_short_circuits_with_400 "xyz" (by decide)
          emptyUpdateStoryBody 0 emptyDB).1
  · exact
      (malformed_id_short_circuits_with_400 "xyz" (by decide)
          emptyUpdateStoryBody 0 emptyDB).2.2.1

/-- C10: `pickDefined` keeps exactly the entries whose value is not
`undefined` (in particular `null` entries survive), and in the applied
update a field supplied as explicit `null` clears the stored column while
an absent field leaves it untouched (shown for `release_id`). -/
theorem pickDefined_drops_undefined_preserves_null :
    (∀ (obj : List (String × JsVal)) (k : String) (v : JsVal),
        (k, v) ∈ pickDefined obj ↔ ((k, v) ∈ obj ∧ v ≠ JsVal.undef))
    ∧ (∀ (b : UpdateStoryBody) (now : Nat) (s : StoryRow),
        (b.release_id = some none →
          (applyStoryUpdate b now s).release_id = none)
        ∧ (b.release_id = none →
            (applyStoryUpdate b now s).release_id = s.release_id)) := by
  constructor
  · intro obj k v
    simp [pickDefined, List.mem_filter]
  · intro b now s
    constructor
    · intro h
      simp [applyStoryUpdate, h]
    · intro h
      simp [applyStoryUpdate, h]

/-- C10 witness: a `null` entry survives `pickDefined` next to a dropped
`undefined` entry, and a `release_id` supplied as `null` clears the column. -/
theorem pickDefined_drops_undefined_preserves_null_witness :
    (("k", JsVal.null)
        ∈ pickDefined [("k", JsVal.null), ("j", JsVal.undef)])
    ∧ (applyStoryUpdate releaseNullBody 5
        { sampleStory with release_id := some "r1" }).release_id = none := by
  constructor
  · exact
      (pickDefined_drops_undefined_preserves_null.1
          [("k", JsVal.null), ("j", JsVal.undef)] "k" JsVal.null).mpr
        ⟨by decide, by decide⟩
  · exact
      (pickDefined_drops_undefined_preserves_null.2 releaseNullBody 5
          { sampleStory with release_id := some "r1" }).1 rfl

end BeemSpec
